import Mathlib

/-!
Shallow embedding of the EOS S2-style simulation/optimization core
(`src/akkudoktoreos/simulation/simulationabc.py` and
`src/akkudoktoreos/optimization/optimizationabc.py`).

Modelling conventions:
* pendulum `DateTime` and `Duration` are totally ordered instants/spans; they
  are embedded as integers (`Int`), with `+` for datetime-plus-duration.
* Python `float` fields are embedded as `Rat` (the claims only compare and
  add these values; no platform float behaviour is involved).
* pydantic model construction is embedded by `mk...` functions returning
  `Except String _`: they perform exactly the validations declared on the
  pydantic model (field constraints such as `ge=0, le=1`); no other
  validators exist in the source.
* Python attribute access on `DeviceControlInstruction` is embedded via an
  explicit attribute table, so that access to an undeclared attribute is an
  `AttributeError` (`Except.error`), as in pydantic/Python.
-/

namespace EOS

/-- S2 basic type: `ID = str`. -/
abbrev ID := String

/-- pendulum `DateTime`, embedded as an integer instant (total order, and
adding a `Duration` is integer addition). -/
abbrev S2DateTime := Int

/-- pendulum `Duration`, embedded as an integer span. -/
abbrev S2Duration := Int

/-- `RoleType` enumeration. -/
inductive RoleType where
  | ENERGY_PRODUCER | ENERGY_CONSUMER | ENERGY_STORAGE
deriving DecidableEq, Repr

/-- `Commodity` enumeration. -/
inductive Commodity where
  | GAS | HEAT | ELECTRICITY | OIL
deriving DecidableEq, Repr

/-- `CommodityQuantity` enumeration. -/
inductive CommodityQuantity where
  | ELECTRIC_POWER_L1
  | ELECTRIC_POWER_L2
  | ELECTRIC_POWER_L3
  | ELECTRIC_POWER_3_PHASE_SYM
  | NATURAL_GAS_FLOW_RATE
  | HYDROGEN_FLOW_RATE
  | HEAT_TEMPERATURE
  | HEAT_FLOW_RATE
  | HEAT_THERMAL_POWER
  | OIL_FLOW_RATE
  | CURRENCY
deriving DecidableEq, Repr

/-- `Currency` enumeration (ISO 4217 codes, as in the source). -/
inductive Currency where
  | AED | AFN | ALL | AMD | ANG | AOA | ARS | AUD | AWG | AZN
  | BAM | BBD | BDT | BGN | BHD | BIF | BMD | BND | BOB | BRL
  | BSD | BTN | BWP | BYN | BZD | CAD | CDF | CHF | CLP | CNY
  | COP | CRC | CUP | CVE | CZK | DJF | DKK | DOP | DZD | EGP
  | ERN | ETB | EUR | FJD | FKP | FOK | GBP | GEL | GGP | GHS
  | GIP | GMD | GNF | GTQ | GYD | HKD | HNL | HRK | HTG | HUF
  | IDR | ILS | IMP | INR | IQD | IRR | ISK | JEP | JMD | JOD
  | JPY | KES | KGS | KHR | KID | KMF | KRW | KWD | KYD | KZT
  | LAK | LBP | LKR | LRD | LSL | LYD | MAD | MDL | MGA | MKD
  | MMK | MNT | MOP | MRU | MUR | MVR | MWK | MXN | MYR | MZN
  | NAD | NGN | NIO | NOK | NPR | NZD | OMR | PAB | PEN | PGK
  | PHP | PKR | PLN | PYG | QAR | RON | RSD | RUB | RWF | SAR
  | SBD | SCR | SDG | SEK | SGD | SHP | SLE | SLL | SOS | SRD
  | SSP | STN | SYP | SZL | THB | TJS | TMT | TND | TOP | TRY
  | TTD | TVD | TWD | TZS | UAH | UGX | USD | UYU | UZS | VES
  | VND | VUV | WST | XAF | XCD | XOF | XPF | YER | ZAR | ZMW
  | ZWL
deriving DecidableEq, Repr

/-- `InstructionStatus` enumeration. -/
inductive InstructionStatus where
  | NEW | ACCEPTED | REJECTED | REVOKED | STARTED | SUCCEEDED | ABORTED
deriving DecidableEq, Repr

/-- `ControlType` enumeration. -/
inductive ControlType where
  | POWER_ENVELOPE_BASED_CONTROL
  | POWER_PROFILE_BASED_CONTROL
  | OPERATION_MODE_BASED_CONTROL
  | FILL_RATE_BASED_CONTROL
  | DEMAND_DRIVEN_BASED_CONTROL
  | NOT_CONTROLABLE
  | NO_SELECTION
deriving DecidableEq, Repr

/-- `PEBCPowerEnvelopeLimitType` enumeration. -/
inductive PEBCPowerEnvelopeLimitType where
  | UPPER_LIMIT | LOWER_LIMIT
deriving DecidableEq, Repr

/-- `PEBCPowerEnvelopeConsequenceType` enumeration. -/
inductive PEBCPowerEnvelopeConsequenceType where
  | VANISH | DEFER
deriving DecidableEq, Repr

/-- `ReceptionStatusValues` enumeration. -/
inductive ReceptionStatusValues where
  | SUCCEEDED | REJECTED
deriving DecidableEq, Repr

/-- `PPBCPowerSequenceStatus` enumeration. -/
inductive PPBCPowerSequenceStatus where
  | NOT_SCHEDULED | SCHEDULED | EXECUTING | INTERRUPTED | FINISHED | ABORTED
deriving DecidableEq, Repr

/-- `PowerValue`: a power value tagged with a `CommodityQuantity`. -/
structure PowerValue where
  commodity_quantity : CommodityQuantity
  value : Rat
deriving DecidableEq, Repr

/-- `PowerForecastValue`: expected value plus optional confidence bounds. -/
structure PowerForecastValue where
  value_upper_limit : Option Rat := none
  value_upper_95PPR : Option Rat := none
  value_upper_68PPR : Option Rat := none
  value_expected : Rat
  value_lower_68PPR : Option Rat := none
  value_lower_95PPR : Option Rat := none
  value_lower_limit : Option Rat := none
  commodity_quantity : CommodityQuantity
deriving DecidableEq, Repr

/-- `PowerRange`: start/end power value for a commodity quantity. -/
structure PowerRange where
  start_of_range : Rat
  end_of_range : Rat
  commodity_quantity : CommodityQuantity
deriving DecidableEq, Repr

/-- `NumberRange`: generic numeric range. -/
structure NumberRange where
  start_of_range : Rat
  end_of_range : Rat
deriving DecidableEq, Repr

/-- `PowerMeasurement`: timestamped list of `PowerValue`s. -/
structure PowerMeasurement where
  measurement_timestamp : S2DateTime
  values : List PowerValue
deriving DecidableEq, Repr

/-- `Role`: a role type for a commodity. -/
structure Role where
  role : RoleType
  commodity : Commodity
deriving DecidableEq, Repr

/-- `ReceptionStatus`: acknowledgement for data submissions. -/
structure ReceptionStatus where
  status : ReceptionStatusValues
  diagnostic_label : Option String := none
deriving DecidableEq, Repr

/-- `Transition`: a permitted transition between operation modes.
The Python fields `from` and `to` are embedded as `from_` and `to_`
(`from` is a Lean keyword and `to` a reserved token here). -/
structure Transition where
  id : ID
  from_ : ID
  to_ : ID
  start_timers : List ID
  blocking_timers : List ID
  transition_costs : Option Rat := none
  transition_duration : Option S2Duration := none
  abnormal_condition_only : Bool
deriving DecidableEq, Repr

/-- `Timer`: a timing constraint gating transitions. -/
structure Timer where
  id : ID
  diagnostic_label : Option String := none
  duration : S2Duration
  finished_at : S2DateTime
deriving DecidableEq, Repr

/-- `InstructionStatusUpdate`: advisory status report for an instruction. -/
structure InstructionStatusUpdate where
  instruction_id : ID
  status_type : InstructionStatus
  timestamp : S2DateTime
deriving DecidableEq, Repr

/-- `SimulationDetails`: identity and capabilities of a Simulation. -/
structure SimulationDetails where
  simulation_id : ID
  name : Option String := none
  roles : List Role
  manufacturer : Option String := none
  model : Option String := none
  serial_number : Option String := none
  firmware_version : Option String := none
  instruction_processing_delay : S2Duration
  available_control_types : List ControlType
  currency : Option Currency := none
  provides_forecast : Bool
  provides_power_measurement_types : List CommodityQuantity
deriving DecidableEq, Repr

/-- `PowerForecastElement`: one segment of a power forecast. -/
structure PowerForecastElement where
  duration : S2Duration
  power_values : List PowerForecastValue
deriving DecidableEq, Repr

/-- `PowerForecast`: a time-series power forecast. -/
structure PowerForecast where
  start_time : S2DateTime
  elements : List PowerForecastElement
deriving DecidableEq, Repr

/-- `PEBCAllowedLimitRange`: permissible range for a power envelope limit. -/
structure PEBCAllowedLimitRange where
  commodity_quantity : CommodityQuantity
  limit_type : PEBCPowerEnvelopeLimitType
  range_boundary : NumberRange
  abnormal_condition_only : Option Bool := some false
deriving DecidableEq, Repr

/-- `PEBCPowerConstraints`: power envelope constraints for a period. -/
structure PEBCPowerConstraints where
  id : ID
  valid_from : S2DateTime
  valid_until : Option S2DateTime := none
  consequence_type : PEBCPowerEnvelopeConsequenceType
  allowed_limit_ranges : List PEBCAllowedLimitRange
deriving DecidableEq, Repr

/-- `PEBCEnergyConstraints`: average-power (energy) constraints. -/
structure PEBCEnergyConstraints where
  id : ID
  valid_from : S2DateTime
  valid_until : S2DateTime
  upper_average_power : Rat
  lower_average_power : Rat
  commodity_quantity : CommodityQuantity
deriving DecidableEq, Repr

/-- `PEBCPowerEnvelopeElement`: one segment of a power envelope. -/
structure PEBCPowerEnvelopeElement where
  duration : S2Duration
  upper_limit : Rat
  lower_limit : Rat
deriving DecidableEq, Repr

/-- `PEBCPowerEnvelope`: a complete power envelope for one quantity. -/
structure PEBCPowerEnvelope where
  id : ID
  commodity_quantity : CommodityQuantity
  power_envelope_elements : List PEBCPowerEnvelopeElement
deriving DecidableEq, Repr

/-- `PEBCInstruction`: control instruction for PEBC. -/
structure PEBCInstruction where
  id : ID
  execution_time : S2DateTime
  abnormal_condition : Bool
  power_constraints_id : ID
  power_envelopes : List PEBCPowerEnvelope
deriving DecidableEq, Repr

/-- `PPBCPowerSequenceElement`: one segment of a power sequence. -/
structure PPBCPowerSequenceElement where
  duration : S2Duration
  power_values : List PowerForecastValue
deriving DecidableEq, Repr

/-- `PPBCPowerSequence`: a power sequence pattern. -/
structure PPBCPowerSequence where
  id : ID
  elements : List PPBCPowerSequenceElement
  is_interruptible : Bool
  max_pause_before : Option S2Duration := none
  abnormal_condition_only : Bool
deriving DecidableEq, Repr

/-- `PPBCPowerSequenceContainer`: alternative power sequences for a phase. -/
structure PPBCPowerSequenceContainer where
  id : ID
  power_sequences : List PPBCPowerSequence
deriving DecidableEq, Repr

/-- `PPBCPowerProfileDefinition`: complete power profile for PPBC. -/
structure PPBCPowerProfileDefinition where
  id : ID
  start_time : S2DateTime
  end_time : S2DateTime
  power_sequences_containers : List PPBCPowerSequenceContainer
deriving DecidableEq, Repr

/-- `PPBCPowerSequenceContainerStatus`: status of one sequence container. -/
structure PPBCPowerSequenceContainerStatus where
  power_profile_id : ID
  sequence_container_id : ID
  selected_sequence_id : Option String := none
  progress : Option S2Duration := none
  status : PPBCPowerSequenceStatus
deriving DecidableEq, Repr

/-- `PPBCPowerProfileStatus`: status of a power profile execution. -/
structure PPBCPowerProfileStatus where
  sequence_container_status : List PPBCPowerSequenceContainerStatus
deriving DecidableEq, Repr

/-- `PPBCScheduleInstruction`: schedule a selected power sequence. -/
structure PPBCScheduleInstruction where
  id : ID
  power_profile_id : ID
  sequence_container_id : ID
  power_sequence_id : ID
  execution_time : S2DateTime
  abnormal_condition : Bool
deriving DecidableEq, Repr

/-- `PPBCStartInterruptionInstruction`: interrupt a running sequence. -/
structure PPBCStartInterruptionInstruction where
  id : ID
  power_profile_id : ID
  sequence_container_id : ID
  power_sequence_id : ID
  execution_time : S2DateTime
  abnormal_condition : Bool
deriving DecidableEq, Repr

/-- `PPBCEndInterruptionInstruction`: resume an interrupted sequence. -/
structure PPBCEndInterruptionInstruction where
  id : ID
  power_profile_id : ID
  sequence_container_id : ID
  power_sequence_id : ID
  execution_time : S2DateTime
  abnormal_condition : Bool
deriving DecidableEq, Repr

/-- `OMBCOperationMode`: an operation mode for OMBC. -/
structure OMBCOperationMode where
  id : ID
  diagnostic_label : Option String := none
  power_ranges : List PowerRange
  running_costs : Option NumberRange := none
  abnormal_condition_only : Bool
deriving DecidableEq, Repr

/-- `OMBCStatus`: current status of an OMBC system.
The pydantic model constrains `operation_mode_factor` by `ge=0.0, le=1.0`;
see `mkOMBCStatus` for the construction-time check. -/
structure OMBCStatus where
  active_operation_mode_id : ID
  operation_mode_factor : Rat
  previous_operation_mode_id : Option String := none
  transition_timestamp : Option S2DateTime := none
deriving DecidableEq, Repr

/-- `OMBCSystemDescription`: complete OMBC system description. -/
structure OMBCSystemDescription where
  valid_from : S2DateTime
  operation_modes : List OMBCOperationMode
  transitions : List Transition
  timers : List Timer
  status : OMBCStatus
deriving DecidableEq, Repr

/-- `OMBCInstruction`: control instruction for OMBC. -/
structure OMBCInstruction where
  id : ID
  execution_time : S2DateTime
  operation_mode_id : ID
  operation_mode_factor : Rat
  abnormal_condition : Bool
deriving DecidableEq, Repr

/-- `FRBCOperationModeElement`: fill-level dependent mode properties. -/
structure FRBCOperationModeElement where
  fill_level_range : NumberRange
  fill_rate : NumberRange
  power_ranges : List PowerRange
  running_costs : Option NumberRange := none
deriving DecidableEq, Repr

/-- `FRBCOperationMode`: an operation mode for FRBC. -/
structure FRBCOperationMode where
  id : ID
  diagnostic_label : Option String := none
  elements : List FRBCOperationModeElement
  abnormal_condition_only : Bool
deriving DecidableEq, Repr

/-- `FRBCActuatorStatus`: current status of an FRBC actuator. -/
structure FRBCActuatorStatus where
  active_operation_mode_id : ID
  operation_mode_factor : Rat
  previous_operation_mode_id : Option String := none
  transition_timestamp : Option S2DateTime := none
deriving DecidableEq, Repr

/-- `FRBCActuatorDescription`: description of an FRBC actuator. -/
structure FRBCActuatorDescription where
  id : ID
  diagnostic_label : Option String := none
  supported_commodities : List String
  status : FRBCActuatorStatus
  operation_modes : List FRBCOperationMode
  transitions : List Transition
  timers : List Timer
deriving DecidableEq, Repr

/-- `FRBCStorageStatus`: current fill level of an FRBC storage. -/
structure FRBCStorageStatus where
  present_fill_level : Rat
deriving DecidableEq, Repr

/-- `FRBCLeakageBehaviourElement`: leakage rate over a fill-level range. -/
structure FRBCLeakageBehaviourElement where
  fill_level_range : NumberRange
  leakage_rate : Rat
deriving DecidableEq, Repr

/-- `FRBCLeakageBehaviour`: complete leakage model of an FRBC storage. -/
structure FRBCLeakageBehaviour where
  valid_from : S2DateTime
  elements : List FRBCLeakageBehaviourElement
deriving DecidableEq, Repr

/-- `FRBCUsageForecastElement`: expected usage rate for a duration. -/
structure FRBCUsageForecastElement where
  duration : S2Duration
  usage_rate_upper_limit : Option Rat := none
  usage_rate_upper_95PPR : Option Rat := none
  usage_rate_upper_68PPR : Option Rat := none
  usage_rate_expected : Rat
  usage_rate_lower_68PPR : Option Rat := none
  usage_rate_lower_95PPR : Option Rat := none
  usage_rate_lower_limit : Option Rat := none
deriving DecidableEq, Repr

/-- `FRBCUsageForecast`: usage forecast of an FRBC storage. -/
structure FRBCUsageForecast where
  start_time : S2DateTime
  elements : List FRBCUsageForecastElement
deriving DecidableEq, Repr

/-- `FRBCFillLevelTargetProfileElement`: target range for a duration. -/
structure FRBCFillLevelTargetProfileElement where
  duration : S2Duration
  fill_level_range : NumberRange
deriving DecidableEq, Repr

/-- `FRBCFillLevelTargetProfile`: fill-level target profile. -/
structure FRBCFillLevelTargetProfile where
  start_time : S2DateTime
  elements : List FRBCFillLevelTargetProfileElement
deriving DecidableEq, Repr

/-- `FRBCStorageDescription`: description of an FRBC storage. -/
structure FRBCStorageDescription where
  diagnostic_label : Option String := none
  fill_level_label : Option String := none
  provides_leakage_behaviour : Bool
  provides_fill_level_target_profile : Bool
  provides_usage_forecast : Bool
  fill_level_range : NumberRange
  status : FRBCStorageStatus
  leakage_behaviour : Option FRBCLeakageBehaviour := none
deriving DecidableEq, Repr

/-- `FRBCInstruction`: control instruction for FRBC. -/
structure FRBCInstruction where
  id : ID
  actuator_id : ID
  operation_mode : String
  operation_mode_factor : Rat
  execution_time : S2DateTime
  abnormal_condition : Bool
deriving DecidableEq, Repr

/-- `FRBCSystemDescription`: complete FRBC system description. -/
structure FRBCSystemDescription where
  valid_from : S2DateTime
  actuators : List FRBCActuatorDescription
  storage : FRBCStorageDescription
deriving DecidableEq, Repr

/-- `DDBCOperationMode`: an operation mode for DDBC. -/
structure DDBCOperationMode where
  id : ID
  diagnostic_label : Option String := none
  power_ranges : List PowerRange
  supply_range : NumberRange
  running_costs : NumberRange
  abnormal_condition_only : Option Bool := some false
deriving DecidableEq, Repr

/-- `DDBCActuatorStatus`: current status of a DDBC actuator. -/
structure DDBCActuatorStatus where
  active_operation_mode_id : ID
  operation_mode_factor : Rat
  previous_operation_mode_id : Option String := none
  transition_timestamp : Option S2DateTime := none
deriving DecidableEq, Repr

/-- `DDBCActuatorDescription`: description of a DDBC actuator. -/
structure DDBCActuatorDescription where
  id : ID
  diagnostic_label : Option String := none
  supported_commodities : List String
  status : DDBCActuatorStatus
  operation_modes : List DDBCOperationMode
  transitions : List Transition
  timers : List Timer
deriving DecidableEq, Repr

/-- `DDBCSystemDescription`: complete DDBC system description. -/
structure DDBCSystemDescription where
  valid_from : S2DateTime
  actuators : List DDBCActuatorDescription
  present_demand_rate : NumberRange
  provides_average_demand_rate_forecast : Bool
deriving DecidableEq, Repr

/-- `DDBCInstruction`: control instruction for DDBC. -/
structure DDBCInstruction where
  id : ID
  execution_time : S2DateTime
  abnormal_condition : Bool
  actuator_id : ID
  operation_mode_id : ID
  operation_mode_factor : Rat
deriving DecidableEq, Repr

/-- `DDBCAverageDemandRateForecastElement`: forecast element for DDBC. -/
structure DDBCAverageDemandRateForecastElement where
  duration : S2Duration
  demand_rate_upper_limit : Option Rat := none
  demand_rate_upper_95PPR : Option Rat := none
  demand_rate_upper_68PPR : Option Rat := none
  demand_rate_expected : Rat
  demand_rate_lower_68PPR : Option Rat := none
  demand_rate_lower_95PPR : Option Rat := none
  demand_rate_lower_limit : Option Rat := none
deriving DecidableEq, Repr

/-- `DDBCAverageDemandRateForecast`: demand rate forecast for DDBC. -/
structure DDBCAverageDemandRateForecast where
  start_time : S2DateTime
  elements : List DDBCAverageDemandRateForecastElement
deriving DecidableEq, Repr

/-- `DeviceControlInstruction`: paradigm-agnostic device command.
Declared pydantic fields: `control_id`, `target_device`, `commodity_quantity`,
`start_time`, `duration`, `power`, `fill_level`, `enable`. -/
structure DeviceControlInstruction where
  control_id : ID
  target_device : ID
  commodity_quantity : CommodityQuantity
  start_time : S2DateTime
  duration : S2Duration
  power : Option Rat := none
  fill_level : Option Rat := none
  enable : Option Bool := none
deriving DecidableEq, Repr

/-- A Python attribute value of a `DeviceControlInstruction` field. -/
inductive PyVal where
  | pynone
  | pybool (b : Bool)
  | pynum (q : Rat)
  | pystr (s : String)
  | pydatetime (t : S2DateTime)
  | pyduration (d : S2Duration)
  | pycq (c : CommodityQuantity)
deriving DecidableEq, Repr

/-- `True` iff the value is Python `None`. -/
def PyVal.isPyNone : PyVal → Bool
  | .pynone => true
  | _ => false

/-- The attribute table of a `DeviceControlInstruction` object: exactly the
declared pydantic fields, mapped to their values (`None` for unset optional
fields). Any other attribute name is undefined. -/
def DeviceControlInstruction.attr (self : DeviceControlInstruction) (name : String) :
    Option PyVal :=
  if name = "control_id" then some (.pystr self.control_id)
  else if name = "target_device" then some (.pystr self.target_device)
  else if name = "commodity_quantity" then some (.pycq self.commodity_quantity)
  else if name = "start_time" then some (.pydatetime self.start_time)
  else if name = "duration" then some (.pyduration self.duration)
  else if name = "power" then
    some (match self.power with | some q => .pynum q | none => .pynone)
  else if name = "fill_level" then
    some (match self.fill_level with | some q => .pynum q | none => .pynone)
  else if name = "enable" then
    some (match self.enable with | some b => .pybool b | none => .pynone)
  else none

/-- Python attribute access `self.<name>`: an undefined attribute raises
`AttributeError` (pydantic models raise it like plain Python objects). -/
def DeviceControlInstruction.getattr (self : DeviceControlInstruction) (name : String) :
    Except String PyVal :=
  match self.attr name with
  | some v => .ok v
  | none => .error ("AttributeError: DeviceControlInstruction has no attribute " ++ name)

/-- `DeviceControlInstruction.is_power_control`:
`return self.power_value is not None` (note: the source reads the attribute
`power_value`, while the declared field is named `power`). -/
def DeviceControlInstruction.is_power_control (self : DeviceControlInstruction) :
    Except String Bool :=
  (self.getattr "power_value").map (fun v => !v.isPyNone)

/-- `DeviceControlInstruction.is_fill_level_control`:
`return self.fill_level_target is not None` (note: the source reads the
attribute `fill_level_target`, while the declared field is named
`fill_level`). -/
def DeviceControlInstruction.is_fill_level_control (self : DeviceControlInstruction) :
    Except String Bool :=
  (self.getattr "fill_level_target").map (fun v => !v.isPyNone)

/-- `DeviceControlInstruction.is_enable_disable`:
`return self.enable is not None`. -/
def DeviceControlInstruction.is_enable_disable (self : DeviceControlInstruction) :
    Except String Bool :=
  (self.getattr "enable").map (fun v => !v.isPyNone)

/-- `EnergyManagementPlan`: time-ordered container of device control
instructions. -/
structure EnergyManagementPlan where
  plan_id : ID
  generated_at : S2DateTime
  valid_from : Option S2DateTime := none
  valid_until : Option S2DateTime := none
  instructions : List DeviceControlInstruction
  comment : Option String := none
deriving DecidableEq, Repr

/-- The sort key comparison used by `add_instruction`
(`key=lambda i: i.start_time`, ascending). -/
def leStart (a b : DeviceControlInstruction) : Prop :=
  a.start_time ≤ b.start_time

instance : DecidableRel leStart := fun _ _ => inferInstanceAs (Decidable (_ ≤ _))

instance : IsTotal DeviceControlInstruction leStart :=
  ⟨fun a b => Int.le_total a.start_time b.start_time⟩

instance : IsTrans DeviceControlInstruction leStart :=
  ⟨fun _ _ _ hab hbc => le_trans hab hbc⟩

namespace EnergyManagementPlan

/-- `EnergyManagementPlan._update_time_range`: on a non-empty instruction
list, `valid_from := min(i.start_time)` and
`valid_until := max(i.start_time + to_duration(i.duration))` (Python `min`/
`max` over a non-empty iterable is a left fold); on an empty list both are
set to `to_datetime()` (wall-clock now, passed explicitly as `now`). -/
def updateTimeRange (now : S2DateTime) (p : EnergyManagementPlan) :
    EnergyManagementPlan :=
  match p.instructions with
  | [] => { p with valid_from := some now, valid_until := some now }
  | i :: is =>
      { p with
        valid_from := some ((is.map (·.start_time)).foldl min i.start_time),
        valid_until := some ((is.map (fun j => j.start_time + j.duration)).foldl max
          (i.start_time + i.duration)) }

/-- `EnergyManagementPlan.add_instruction`: append, then stable-sort the list
ascending by `start_time` (Python `list.sort` is stable; a stable sort for a
total preorder is unique, so it is embedded as insertion sort), then
recompute the validity window. -/
def addInstruction (now : S2DateTime) (x : DeviceControlInstruction)
    (p : EnergyManagementPlan) : EnergyManagementPlan :=
  updateTimeRange now
    { p with instructions := (p.instructions ++ [x]).insertionSort leStart }

/-- `EnergyManagementPlan.clear`: empty the list and set
`valid_from = valid_until = to_datetime()` (wall-clock now, explicit). -/
def clear (now : S2DateTime) (p : EnergyManagementPlan) : EnergyManagementPlan :=
  { p with instructions := [], valid_from := some now, valid_until := some now }

/-- The activity predicate of `get_active_instructions`:
`i.start_time <= now < (i.start_time + i.duration)`. -/
def activeAt (now : S2DateTime) (i : DeviceControlInstruction) : Prop :=
  i.start_time ≤ now ∧ now < i.start_time + i.duration

instance (now : S2DateTime) : DecidablePred (activeAt now) := fun _ =>
  inferInstanceAs (Decidable (_ ∧ _))

/-- `EnergyManagementPlan.get_active_instructions`: filter by `activeAt`;
return Python `None` when the filtered list is empty, else the list. -/
def getActiveInstructions (p : EnergyManagementPlan) (now : S2DateTime) :
    Option (List DeviceControlInstruction) :=
  let active := p.instructions.filter (fun i => decide (activeAt now i))
  if active.isEmpty then none else some active

/-- Python `min(list, key=...)` on a non-empty list: left fold that replaces
the accumulator only on a strictly smaller key, hence it returns the first
element attaining the minimal key. -/
def pyMinByStart (h : DeviceControlInstruction) (t : List DeviceControlInstruction) :
    DeviceControlInstruction :=
  t.foldl (fun acc x => if x.start_time < acc.start_time then x else acc) h

/-- `EnergyManagementPlan.get_next_instruction`: filter by
`compare_datetimes(i.start_time, now).gt` (strictly later start), return
Python `None` if empty, else `min(..., key=lambda i: i.start_time)`. -/
def getNextInstruction (p : EnergyManagementPlan) (now : S2DateTime) :
    Option DeviceControlInstruction :=
  match p.instructions.filter (fun i => decide (now < i.start_time)) with
  | [] => none
  | h :: t => some (pyMinByStart h t)

/-- `EnergyManagementPlan.get_instructions_for_device`: filter by
`target_device == device_id`, order preserved. -/
def getInstructionsForDevice (p : EnergyManagementPlan) (device_id : ID) :
    List DeviceControlInstruction :=
  p.instructions.filter (fun i => decide (i.target_device = device_id))

end EnergyManagementPlan

/-! ### Construction (pydantic validation) models

pydantic validates declared field constraints at construction.  In the whole
source the only declared value constraints on the entities below are the
`ge=0.0, le=1.0` bounds on `operation_mode_factor` fields; no custom
validators (`model_validator`/`field_validator`) exist anywhere in the
source, so no cross-reference or uniqueness checks happen at construction. -/

/-- Construction of `OMBCStatus` from raw data: pydantic checks
`0 <= operation_mode_factor <= 1` and nothing else. -/
def mkOMBCStatus (active_operation_mode_id : ID) (operation_mode_factor : Rat)
    (previous_operation_mode_id : Option String)
    (transition_timestamp : Option S2DateTime) : Except String OMBCStatus :=
  if 0 ≤ operation_mode_factor ∧ operation_mode_factor ≤ 1 then
    .ok ⟨active_operation_mode_id, operation_mode_factor,
      previous_operation_mode_id, transition_timestamp⟩
  else
    .error "ValidationError: operation_mode_factor out of range"

/-- Construction of `OMBCSystemDescription` from validated components: the
pydantic model declares no constraints and no validators, so construction
always succeeds; in particular no cross-reference check between
`transitions`, `operation_modes` and `timers` is performed. -/
def mkOMBCSystemDescription (valid_from : S2DateTime)
    (operation_modes : List OMBCOperationMode) (transitions : List Transition)
    (timers : List Timer) (status : OMBCStatus) :
    Except String OMBCSystemDescription :=
  .ok ⟨valid_from, operation_modes, transitions, timers, status⟩

/-- The dangling-`to` condition on an `OMBCSystemDescription`: some contained
`Transition` whose `to` does not reference the id of a contained
`OMBCOperationMode`. -/
def hasDanglingTransitionTo (d : OMBCSystemDescription) : Prop :=
  ∃ t ∈ d.transitions, t.to_ ∉ d.operation_modes.map (·.id)

instance (d : OMBCSystemDescription) : Decidable (hasDanglingTransitionTo d) :=
  inferInstanceAs (Decidable (∃ _ ∈ _, _))

/-- The general dangling-cross-reference condition of the claim, for any
operation-mode/transition/timer element set: some contained `Transition`
whose `from` or `to` does not reference one of the given operation-mode ids,
or one of whose `start_timers`/`blocking_timers` ids does not reference one
of the given timer ids. -/
def danglingTransitionRefs (modeIds timerIds : List ID)
    (transitions : List Transition) : Prop :=
  ∃ t ∈ transitions,
    t.from_ ∉ modeIds ∨ t.to_ ∉ modeIds ∨
    (∃ i ∈ t.start_timers, i ∉ timerIds) ∨
    (∃ i ∈ t.blocking_timers, i ∉ timerIds)

instance (modeIds timerIds : List ID) (transitions : List Transition) :
    Decidable (danglingTransitionRefs modeIds timerIds transitions) :=
  inferInstanceAs (Decidable (∃ _ ∈ _, _))

/-- Construction of `FRBCActuatorDescription` from validated components: the
pydantic model declares no constraints and no validators, so construction
always succeeds; no cross-reference check between `transitions`,
`operation_modes` and `timers` is performed. -/
def mkFRBCActuatorDescription (id : ID) (diagnostic_label : Option String)
    (supported_commodities : List String) (status : FRBCActuatorStatus)
    (operation_modes : List FRBCOperationMode) (transitions : List Transition)
    (timers : List Timer) : Except String FRBCActuatorDescription :=
  .ok ⟨id, diagnostic_label, supported_commodities, status, operation_modes,
    transitions, timers⟩

/-- Construction of `FRBCSystemDescription` from validated components: no
declared constraints, no validators; construction always succeeds. -/
def mkFRBCSystemDescription (valid_from : S2DateTime)
    (actuators : List FRBCActuatorDescription)
    (storage : FRBCStorageDescription) : Except String FRBCSystemDescription :=
  .ok ⟨valid_from, actuators, storage⟩

/-- Construction of `DDBCActuatorDescription` from validated components: no
declared constraints, no validators; construction always succeeds, and no
cross-reference check is performed. -/
def mkDDBCActuatorDescription (id : ID) (diagnostic_label : Option String)
    (supported_commodities : List String) (status : DDBCActuatorStatus)
    (operation_modes : List DDBCOperationMode) (transitions : List Transition)
    (timers : List Timer) : Except String DDBCActuatorDescription :=
  .ok ⟨id, diagnostic_label, supported_commodities, status, operation_modes,
    transitions, timers⟩

/-- Construction of `DDBCSystemDescription` from validated components: no
declared constraints, no validators; construction always succeeds. -/
def mkDDBCSystemDescription (valid_from : S2DateTime)
    (actuators : List DDBCActuatorDescription) (present_demand_rate : NumberRange)
    (provides_average_demand_rate_forecast : Bool) :
    Except String DDBCSystemDescription :=
  .ok ⟨valid_from, actuators, present_demand_rate,
    provides_average_demand_rate_forecast⟩

/-- Dangling cross-references inside an `FRBCActuatorDescription`. -/
def FRBCActuatorDescription.danglingRefs (a : FRBCActuatorDescription) : Prop :=
  danglingTransitionRefs (a.operation_modes.map (·.id)) (a.timers.map (·.id))
    a.transitions

instance (a : FRBCActuatorDescription) : Decidable a.danglingRefs :=
  inferInstanceAs (Decidable (danglingTransitionRefs _ _ _))

/-- Dangling cross-references inside a `DDBCActuatorDescription`. -/
def DDBCActuatorDescription.danglingRefs (a : DDBCActuatorDescription) : Prop :=
  danglingTransitionRefs (a.operation_modes.map (·.id)) (a.timers.map (·.id))
    a.transitions

instance (a : DDBCActuatorDescription) : Decidable a.danglingRefs :=
  inferInstanceAs (Decidable (danglingTransitionRefs _ _ _))

/-- Construction of `PowerMeasurement` from raw data: the pydantic model
declares no constraint on `values` (the at-most-one-per-commodity rule is
stated only in the field description text, and there is not even a
`min_length=1` bound), so construction always succeeds. -/
def mkPowerMeasurement (measurement_timestamp : S2DateTime)
    (values : List PowerValue) : Except String PowerMeasurement :=
  .ok ⟨measurement_timestamp, values⟩

/-- The values list holds at most one `PowerValue` per `CommodityQuantity`. -/
def uniquePerCommodity (values : List PowerValue) : Prop :=
  (values.map (·.commodity_quantity)).Nodup

instance (values : List PowerValue) : Decidable (uniquePerCommodity values) :=
  inferInstanceAs (Decidable (List.Nodup _))

/-! ### CEC contract (`OptimizationBase`) and Simulation contract
(`SimulationBase`) -/

/-- The `Union[...]` parameter type of
`OptimizationBase.process_simulation_update`, as a tagged sum. -/
inductive SimulationUpdate where
  | simulationDetails (v : SimulationDetails)
  | controlType (v : ControlType)
  | pebcPowerConstraints (v : PEBCPowerConstraints)
  | pebcEnergyConstraints (v : PEBCEnergyConstraints)
  | ppbcPowerProfileDefinition (v : PPBCPowerProfileDefinition)
  | ombcSystemDescription (v : OMBCSystemDescription)
  | frbcSystemDescription (v : FRBCSystemDescription)
  | frbcLeakageBehaviour (v : FRBCLeakageBehaviour)
  | frbcUsageForecast (v : FRBCUsageForecast)
  | frbcFillLevelTargetProfile (v : FRBCFillLevelTargetProfile)
  | ddbcSystemDescription (v : DDBCSystemDescription)
  | ddbcAverageDemandRateForecast (v : DDBCAverageDemandRateForecast)
deriving DecidableEq, Repr

/-- The `Union[...]` parameter type of `SimulationBase.process_instruction`,
as a tagged sum. -/
inductive SimInstruction where
  | pebc (v : PEBCInstruction)
  | ppbcSchedule (v : PPBCScheduleInstruction)
  | ppbcStartInterruption (v : PPBCStartInterruptionInstruction)
  | ppbcEndInterruption (v : PPBCEndInterruptionInstruction)
  | ombc (v : OMBCInstruction)
  | frbc (v : FRBCInstruction)
  | ddbc (v : DDBCInstruction)
deriving DecidableEq, Repr

/-- The constant every abstract handler returns:
`ReceptionStatus(status=REJECTED, diagnostic_label="abstract method")`. -/
def abstractMethodRejected : ReceptionStatus :=
  { status := .REJECTED, diagnostic_label := some "abstract method" }

/-- `OptimizationBase`: the abstract CEC.  Its only pydantic field is
`power_forecast`; every handler is a stub that builds and returns a
`ReceptionStatus` without touching `self`. -/
structure OptimizationBase where
  power_forecast : PowerForecast
deriving DecidableEq, Repr

namespace OptimizationBase

/-- `process_simulation_update(simulation_id, update)`. -/
def process_simulation_update (_self : OptimizationBase) (_simulation_id : ID)
    (_update : SimulationUpdate) : ReceptionStatus :=
  abstractMethodRejected

/-- `process_power_measurement(simulation_id, power_measurement)`. -/
def process_power_measurement (_self : OptimizationBase) (_simulation_id : ID)
    (_power_measurement : PowerMeasurement) : ReceptionStatus :=
  abstractMethodRejected

/-- `process_power_forecast(simulation_id, power_forecast)`. -/
def process_power_forecast (_self : OptimizationBase) (_simulation_id : ID)
    (_power_forecast : PowerForecast) : ReceptionStatus :=
  abstractMethodRejected

/-- `revoke_power_forecast(simulation_id)`. -/
def revoke_power_forecast (_self : OptimizationBase) (_simulation_id : ID) :
    ReceptionStatus :=
  abstractMethodRejected

/-- `revoke_pebc_power_constraints(simulation_id, id)`. -/
def revoke_pebc_power_constraints (_self : OptimizationBase)
    (_simulation_id : ID) (_id : ID) : ReceptionStatus :=
  abstractMethodRejected

/-- `revoke_pebc_energy_constraints(simulation_id, id)`. -/
def revoke_pebc_energy_constraints (_self : OptimizationBase)
    (_simulation_id : ID) (_id : ID) : ReceptionStatus :=
  abstractMethodRejected

/-- `revoke_ppbc_power_profile_definition(simulation_id, id)`. -/
def revoke_ppbc_power_profile_definition (_self : OptimizationBase)
    (_simulation_id : ID) (_id : ID) : ReceptionStatus :=
  abstractMethodRejected

/-- `revoke_ombc_system_description(simulation_id, id)`. -/
def revoke_ombc_system_description (_self : OptimizationBase)
    (_simulation_id : ID) (_id : ID) : ReceptionStatus :=
  abstractMethodRejected

/-- `revoke_frbc_system_description(simulation_id, id)`. -/
def revoke_frbc_system_description (_self : OptimizationBase)
    (_simulation_id : ID) (_id : ID) : ReceptionStatus :=
  abstractMethodRejected

/-- `revoke_frbc_leakage_behaviour(simulation_id)`. -/
def revoke_frbc_leakage_behaviour (_self : OptimizationBase)
    (_simulation_id : ID) : ReceptionStatus :=
  abstractMethodRejected

/-- `revoke_frbc_usage_forecast(simulation_id)`. -/
def revoke_frbc_usage_forecast (_self : OptimizationBase)
    (_simulation_id : ID) : ReceptionStatus :=
  abstractMethodRejected

/-- `revoke_frbc_fill_level_target_profile(simulation_id)`. -/
def revoke_frbc_fill_level_target_profile (_self : OptimizationBase)
    (_simulation_id : ID) : ReceptionStatus :=
  abstractMethodRejected

/-- `revoke_ddbc_system_description(simulation_id)` — note: unlike the OMBC
and FRBC variants, the source signature takes no artifact id. -/
def revoke_ddbc_system_description (_self : OptimizationBase)
    (_simulation_id : ID) : ReceptionStatus :=
  abstractMethodRejected

/-- `revoke_ddbc_average_demand_rate_forecast(simulation_id)` — note: the
source signature takes no artifact id. -/
def revoke_ddbc_average_demand_rate_forecast (_self : OptimizationBase)
    (_simulation_id : ID) : ReceptionStatus :=
  abstractMethodRejected

end OptimizationBase

/-- `SimulationBase`: the abstract Simulation (device side).  It declares no
pydantic fields of its own; every handler is a stub. -/
structure SimulationBase where
deriving DecidableEq, Repr

namespace SimulationBase

/-- `activate_control_type(control_type)`. -/
def activate_control_type (_self : SimulationBase) (_control_type : ControlType) :
    ReceptionStatus :=
  abstractMethodRejected

/-- `process_instruction(instruction)`: returns
`InstructionStatus.REJECTED`. -/
def process_instruction (_self : SimulationBase) (_instruction : SimInstruction) :
    InstructionStatus :=
  .REJECTED

/-- `revoke_pebc_instruction(id)`. -/
def revoke_pebc_instruction (_self : SimulationBase) (_id : ID) : ReceptionStatus :=
  abstractMethodRejected

/-- `revoke_ppbc_instruction(id)`. -/
def revoke_ppbc_instruction (_self : SimulationBase) (_id : ID) : ReceptionStatus :=
  abstractMethodRejected

/-- `revoke_ppbc_start_interrupt_instruction(id)`. -/
def revoke_ppbc_start_interrupt_instruction (_self : SimulationBase) (_id : ID) :
    ReceptionStatus :=
  abstractMethodRejected

/-- `revoke_ppbc_end_interrupt_instruction(id)`. -/
def revoke_ppbc_end_interrupt_instruction (_self : SimulationBase) (_id : ID) :
    ReceptionStatus :=
  abstractMethodRejected

/-- `revoke_ombc_instruction(id)`. -/
def revoke_ombc_instruction (_self : SimulationBase) (_id : ID) : ReceptionStatus :=
  abstractMethodRejected

/-- `revoke_frbc_instruction(id)`. -/
def revoke_frbc_instruction (_self : SimulationBase) (_id : ID) : ReceptionStatus :=
  abstractMethodRejected

/-- `revoke_ddbc_instruction(id)`. -/
def revoke_ddbc_instruction (_self : SimulationBase) (_id : ID) : ReceptionStatus :=
  abstractMethodRejected

end SimulationBase

/-- The CEC revoke operations for paradigm-specific artifacts
(`OptimizationBase.revoke_*`, excluding `revoke_power_forecast`). -/
inductive CECRevokeOp where
  | pebc_power_constraints
  | pebc_energy_constraints
  | ppbc_power_profile_definition
  | ombc_system_description
  | frbc_system_description
  | frbc_leakage_behaviour
  | frbc_usage_forecast
  | frbc_fill_level_target_profile
  | ddbc_system_description
  | ddbc_average_demand_rate_forecast
deriving DecidableEq, Repr

/-- The number of `ID` parameters of each CEC revoke method in the source
(besides `self`): `2` means keyed by `(simulation_id, artifact_id)`, `1`
means keyed by `simulation_id` alone.  Transcribed from the signatures in
`optimizationabc.py` (they match the arities of the embedded methods in
`OptimizationBase` above). -/
def cecRevokeIdParams : CECRevokeOp → Nat
  | .pebc_power_constraints => 2
  | .pebc_energy_constraints => 2
  | .ppbc_power_profile_definition => 2
  | .ombc_system_description => 2
  | .frbc_system_description => 2
  | .frbc_leakage_behaviour => 1
  | .frbc_usage_forecast => 1
  | .frbc_fill_level_target_profile => 1
  | .ddbc_system_description => 1
  | .ddbc_average_demand_rate_forecast => 1

/-! ### Helper notions and lemmas -/

/-- Stable insertion of `x` into `l`: existing elements keep their relative
order, and `x` is placed after every element whose `start_time` is less than
or equal to `x`'s (so among equal keys the earlier-inserted elements come
first).  This is the observable effect of append-then-stable-sort on an
already sorted list. -/
def insertAfterLe (x : DeviceControlInstruction) :
    List DeviceControlInstruction → List DeviceControlInstruction
  | [] => [x]
  | y :: l => if y.start_time ≤ x.start_time then y :: insertAfterLe x l
              else x :: y :: l

lemma orderedInsert_insertAfterLe (y x : DeviceControlInstruction)
    (l : List DeviceControlInstruction) (hs : (y :: l).Sorted leStart) :
    (insertAfterLe x l).orderedInsert leStart y = insertAfterLe x (y :: l) := by
  have hyl : ∀ j ∈ l, leStart y j := List.rel_of_sorted_cons hs
  cases l with
  | nil =>
      by_cases hyx : y.start_time ≤ x.start_time
      · simp [insertAfterLe, List.orderedInsert, leStart, hyx]
      · simp [insertAfterLe, List.orderedInsert, leStart, hyx]
  | cons z l' =>
      have hyz : y.start_time ≤ z.start_time := hyl z (by simp)
      by_cases hzx : z.start_time ≤ x.start_time
      · have hyx : y.start_time ≤ x.start_time := le_trans hyz hzx
        simp [insertAfterLe, List.orderedInsert, leStart, hzx, hyx, hyz]
      · by_cases hyx : y.start_time ≤ x.start_time
        · simp [insertAfterLe, List.orderedInsert, leStart, hzx, hyx]
        · simp [insertAfterLe, List.orderedInsert, leStart, hzx, hyx, hyz]

/-- On a list that is already sorted by `start_time`, appending `x` and
stable-sorting is exactly the stable insertion `insertAfterLe`. -/
lemma insertionSort_append_singleton (x : DeviceControlInstruction) :
    ∀ l : List DeviceControlInstruction, l.Sorted leStart →
      (l ++ [x]).insertionSort leStart = insertAfterLe x l := by
  intro l
  induction l with
  | nil => intro _; simp [insertAfterLe]
  | cons y l ih =>
      intro hs
      have htail : l.Sorted leStart := hs.tail
      calc ((y :: l) ++ [x]).insertionSort leStart
          = ((l ++ [x]).insertionSort leStart).orderedInsert leStart y := by
            simp [List.insertionSort]
        _ = (insertAfterLe x l).orderedInsert leStart y := by rw [ih htail]
        _ = insertAfterLe x (y :: l) := orderedInsert_insertAfterLe y x l hs

lemma foldl_min_le_init : ∀ (xs : List Int) (a : Int), xs.foldl min a ≤ a := by
  intro xs
  induction xs with
  | nil => intro a; simp
  | cons x xs ih =>
      intro a
      calc (x :: xs).foldl min a = xs.foldl min (min a x) := rfl
        _ ≤ min a x := ih (min a x)
        _ ≤ a := min_le_left a x

lemma foldl_min_le_mem : ∀ (xs : List Int) (a y : Int), y ∈ xs →
    xs.foldl min a ≤ y := by
  intro xs
  induction xs with
  | nil => intro a y hy; cases hy
  | cons x xs ih =>
      intro a y hy
      rcases List.mem_cons.mp hy with h | h
      · subst h
        calc (y :: xs).foldl min a = xs.foldl min (min a y) := rfl
          _ ≤ min a y := foldl_min_le_init xs (min a y)
          _ ≤ y := min_le_right a y
      · exact ih (min a x) y h

lemma foldl_min_mem : ∀ (xs : List Int) (a : Int),
    xs.foldl min a = a ∨ xs.foldl min a ∈ xs := by
  intro xs
  induction xs with
  | nil => intro a; left; rfl
  | cons x xs ih =>
      intro a
      rcases ih (min a x) with h | h
      · rcases min_choice a x with hm | hm
        · left; show xs.foldl min (min a x) = a; rw [h, hm]
        · right; show xs.foldl min (min a x) ∈ x :: xs
          rw [h, hm]; exact List.mem_cons_self x xs
      · right; exact List.mem_cons_of_mem x h

lemma foldl_max_init_le : ∀ (xs : List Int) (a : Int), a ≤ xs.foldl max a := by
  intro xs
  induction xs with
  | nil => intro a; simp
  | cons x xs ih =>
      intro a
      calc a ≤ max a x := le_max_left a x
        _ ≤ xs.foldl max (max a x) := ih (max a x)
        _ = (x :: xs).foldl max a := rfl

lemma foldl_max_mem_le : ∀ (xs : List Int) (a y : Int), y ∈ xs →
    y ≤ xs.foldl max a := by
  intro xs
  induction xs with
  | nil => intro a y hy; cases hy
  | cons x xs ih =>
      intro a y hy
      rcases List.mem_cons.mp hy with h | h
      · subst h
        calc y ≤ max a y := le_max_right a y
          _ ≤ xs.foldl max (max a y) := foldl_max_init_le xs (max a y)
          _ = (y :: xs).foldl max a := rfl
      · exact ih (max a x) y h

lemma foldl_max_mem : ∀ (xs : List Int) (a : Int),
    xs.foldl max a = a ∨ xs.foldl max a ∈ xs := by
  intro xs
  induction xs with
  | nil => intro a; left; rfl
  | cons x xs ih =>
      intro a
      rcases ih (max a x) with h | h
      · rcases max_choice a x with hm | hm
        · left; show xs.foldl max (max a x) = a; rw [h, hm]
        · right; show xs.foldl max (max a x) ∈ x :: xs
          rw [h, hm]; exact List.mem_cons_self x xs
      · right; exact List.mem_cons_of_mem x h

lemma updateTimeRange_instructions (now : S2DateTime) (p : EnergyManagementPlan) :
    (p.updateTimeRange now).instructions = p.instructions := by
  unfold EnergyManagementPlan.updateTimeRange
  cases p.instructions <;> rfl

/-- The validity window computed by `_update_time_range` on a non-empty
instruction list: `valid_from` is the least `start_time` (attained by a
contained instruction) and `valid_until` the greatest
`start_time + duration` (attained by a contained instruction). -/
lemma updateTimeRange_nonempty_spec (now : S2DateTime) (p : EnergyManagementPlan)
    (i : DeviceControlInstruction) (is : List DeviceControlInstruction)
    (hp : p.instructions = i :: is) :
    (∃ a ∈ p.instructions, (p.updateTimeRange now).valid_from = some a.start_time ∧
      ∀ j ∈ p.instructions, a.start_time ≤ j.start_time) ∧
    (∃ b ∈ p.instructions,
      (p.updateTimeRange now).valid_until = some (b.start_time + b.duration) ∧
      ∀ j ∈ p.instructions, j.start_time + j.duration ≤ b.start_time + b.duration) := by
  have hfrom : (p.updateTimeRange now).valid_from =
      some ((is.map (·.start_time)).foldl min i.start_time) := by
    unfold EnergyManagementPlan.updateTimeRange
    rw [hp]
  have huntil : (p.updateTimeRange now).valid_until =
      some ((is.map (fun j => j.start_time + j.duration)).foldl max
        (i.start_time + i.duration)) := by
    unfold EnergyManagementPlan.updateTimeRange
    rw [hp]
  constructor
  · have hmem : (is.map (·.start_time)).foldl min i.start_time = i.start_time ∨
        (is.map (·.start_time)).foldl min i.start_time ∈ is.map (·.start_time) :=
      foldl_min_mem _ _
    have hbound : ∀ j ∈ p.instructions,
        (is.map (·.start_time)).foldl min i.start_time ≤ j.start_time := by
      intro j hj
      rw [hp] at hj
      rcases List.mem_cons.mp hj with h | h
      · subst h; exact foldl_min_le_init _ _
      · exact foldl_min_le_mem _ _ _ (List.mem_map_of_mem (·.start_time) h)
    rcases hmem with h | h
    · exact ⟨i, by rw [hp]; exact List.mem_cons_self i is, by rw [hfrom, h],
        fun j hj => h ▸ hbound j hj⟩
    · obtain ⟨a, ha, hav⟩ := List.mem_map.mp h
      exact ⟨a, by rw [hp]; exact List.mem_cons_of_mem i ha,
        by rw [hfrom, hav], fun j hj => hav.symm ▸ hbound j hj⟩
  · have hmem : (is.map (fun j => j.start_time + j.duration)).foldl max
        (i.start_time + i.duration) = i.start_time + i.duration ∨
        (is.map (fun j => j.start_time + j.duration)).foldl max
          (i.start_time + i.duration) ∈
          is.map (fun j => j.start_time + j.duration) :=
      foldl_max_mem _ _
    have hbound : ∀ j ∈ p.instructions, j.start_time + j.duration ≤
        (is.map (fun j => j.start_time + j.duration)).foldl max
          (i.start_time + i.duration) := by
      intro j hj
      rw [hp] at hj
      rcases List.mem_cons.mp hj with h | h
      · subst h; exact foldl_max_init_le _ _
      · exact foldl_max_mem_le _ _ _
          (List.mem_map_of_mem (fun j => j.start_time + j.duration) h)
    rcases hmem with h | h
    · exact ⟨i, by rw [hp]; exact List.mem_cons_self i is, by rw [huntil, h],
        fun j hj => h ▸ hbound j hj⟩
    · obtain ⟨b, hb, hbv⟩ := List.mem_map.mp h
      exact ⟨b, by rw [hp]; exact List.mem_cons_of_mem i hb,
        by rw [huntil, hbv], fun j hj => hbv.symm ▸ hbound j hj⟩

lemma pyMinByStart_cons (h x : DeviceControlInstruction)
    (t : List DeviceControlInstruction) :
    EnergyManagementPlan.pyMinByStart h (x :: t) =
      EnergyManagementPlan.pyMinByStart
        (if x.start_time < h.start_time then x else h) t := rfl

/-- Python `min(key=start_time)` over a non-empty list returns the first
element attaining the minimal key: the list splits as
`pre ++ m :: post` with every element of `pre` strictly greater. -/
lemma pyMinByStart_spec :
    ∀ (t : List DeviceControlInstruction) (h : DeviceControlInstruction),
      (∀ j ∈ h :: t,
        (EnergyManagementPlan.pyMinByStart h t).start_time ≤ j.start_time) ∧
      ∃ pre post, h :: t = pre ++ (EnergyManagementPlan.pyMinByStart h t) :: post ∧
        ∀ j ∈ pre, (EnergyManagementPlan.pyMinByStart h t).start_time < j.start_time := by
  intro t
  induction t with
  | nil =>
      intro h
      refine ⟨?_, [], [], rfl, by intro j hj; cases hj⟩
      intro j hj
      rcases List.mem_cons.mp hj with rfl | hj
      · exact le_refl _
      · cases hj
  | cons x t ih =>
      intro h
      by_cases hx : x.start_time < h.start_time
      · have heq : EnergyManagementPlan.pyMinByStart h (x :: t) =
            EnergyManagementPlan.pyMinByStart x t := by
          rw [pyMinByStart_cons, if_pos hx]
        obtain ⟨hmin, pre, post, hsplit, hpre⟩ := ih x
        have hmx : (EnergyManagementPlan.pyMinByStart x t).start_time ≤
            x.start_time := hmin x (List.mem_cons_self x t)
        refine ⟨?_, h :: pre, post, ?_, ?_⟩
        · intro j hj
          rw [heq]
          rcases List.mem_cons.mp hj with rfl | hj
          · exact le_of_lt (lt_of_le_of_lt hmx hx)
          · exact hmin j hj
        · rw [heq, List.cons_append, ← hsplit]
        · intro j hj
          rw [heq]
          rcases List.mem_cons.mp hj with rfl | hj
          · exact lt_of_le_of_lt hmx hx
          · exact hpre j hj
      · have heq : EnergyManagementPlan.pyMinByStart h (x :: t) =
            EnergyManagementPlan.pyMinByStart h t := by
          rw [pyMinByStart_cons, if_neg hx]
        have hhx : h.start_time ≤ x.start_time := le_of_not_lt hx
        obtain ⟨hmin, pre, post, hsplit, hpre⟩ := ih h
        have hmh : (EnergyManagementPlan.pyMinByStart h t).start_time ≤
            h.start_time := hmin h (List.mem_cons_self h t)
        have hminx : ∀ j ∈ h :: x :: t,
            (EnergyManagementPlan.pyMinByStart h t).start_time ≤ j.start_time := by
          intro j hj
          rcases List.mem_cons.mp hj with rfl | hj
          · exact hmh
          · rcases List.mem_cons.mp hj with rfl | hj
            · exact le_trans hmh hhx
            · exact hmin j (List.mem_cons_of_mem h hj)
        cases pre with
        | nil =>
            have hmhead : h = EnergyManagementPlan.pyMinByStart h t := by
              have h' := hsplit
              rw [List.nil_append] at h'
              exact (List.cons_eq_cons.mp h').1
            refine ⟨by rw [heq]; exact hminx, [], x :: t, ?_,
              by intro j hj; cases hj⟩
            rw [heq, List.nil_append, ← hmhead]
        | cons q pre' =>
            rw [List.cons_append] at hsplit
            injection hsplit with h1 h2
            refine ⟨by rw [heq]; exact hminx, h :: x :: pre', post, ?_, ?_⟩
            · rw [heq, List.cons_append, List.cons_append, ← h2]
            · intro j hj
              rw [heq]
              have hmq : (EnergyManagementPlan.pyMinByStart h t).start_time <
                  h.start_time := by
                have := hpre q (List.mem_cons_self q pre')
                rw [← h1] at this
                exact this
              rcases List.mem_cons.mp hj with rfl | hj
              · exact hmq
              · rcases List.mem_cons.mp hj with rfl | hj
                · exact lt_of_lt_of_le hmq hhx
                · exact hpre j (List.mem_cons_of_mem q hj)

/-! ### Concrete sample data (used by witnesses and counterexamples) -/

/-- Sample instruction (mirrors the test fixture: power control, start `0`,
duration two hours). -/
def sampleInstrA : DeviceControlInstruction :=
  { control_id := "control1", target_device := "device1",
    commodity_quantity := .ELECTRIC_POWER_3_PHASE_SYM,
    start_time := 0, duration := 7200, power := some 1000 }

/-- Sample instruction starting one hour later. -/
def sampleInstrB : DeviceControlInstruction :=
  { control_id := "control2", target_device := "device2",
    commodity_quantity := .ELECTRIC_POWER_3_PHASE_SYM,
    start_time := 3600, duration := 7200, power := some 0 }

/-- An empty sample plan. -/
def samplePlan : EnergyManagementPlan :=
  { plan_id := "plan1", generated_at := 0, instructions := [],
    comment := some "Test plan" }

/-- A sample plan holding `sampleInstrA` and `sampleInstrB` in sorted order. -/
def samplePlan2 : EnergyManagementPlan :=
  { plan_id := "plan2", generated_at := 0,
    instructions := [sampleInstrA, sampleInstrB] }

/-- Operation mode `OM1` for the C1 counterexample. -/
def c1OperationMode : OMBCOperationMode :=
  { id := "OM1", power_ranges := [], abnormal_condition_only := false }

/-- A transition whose `to` references the non-existent operation mode
`OM2`. -/
def c1Transition : Transition :=
  { id := "T1", from_ := "OM1", to_ := "OM2", start_timers := [],
    blocking_timers := [], abnormal_condition_only := false }

/-- A valid OMBC status for the C1 counterexample. -/
def c1Status : OMBCStatus :=
  { active_operation_mode_id := "OM1", operation_mode_factor := 1 }

/-- The C1 system description: its only transition dangles on `to = "OM2"`. -/
def c1Description : OMBCSystemDescription :=
  { valid_from := 0, operation_modes := [c1OperationMode],
    transitions := [c1Transition], timers := [], status := c1Status }

/-- A valid FRBC actuator status for the C1 witness. -/
def c1FRBCActuatorStatus : FRBCActuatorStatus :=
  { active_operation_mode_id := "OM1", operation_mode_factor := 1 }

/-- An FRBC actuator whose only transition dangles (no operation modes and
no timers are contained, so `from`, `to` and any timer ids all dangle). -/
def c1FRBCActuator : FRBCActuatorDescription :=
  { id := "A1", supported_commodities := [], status := c1FRBCActuatorStatus,
    operation_modes := [], transitions := [c1Transition], timers := [] }

/-- A minimal FRBC storage description for the C1 witness. -/
def c1Storage : FRBCStorageDescription :=
  { provides_leakage_behaviour := false,
    provides_fill_level_target_profile := false,
    provides_usage_forecast := false,
    fill_level_range := { start_of_range := 0, end_of_range := 1 },
    status := { present_fill_level := 0 } }

/-- A valid DDBC actuator status for the C1 witness. -/
def c1DDBCActuatorStatus : DDBCActuatorStatus :=
  { active_operation_mode_id := "OM1", operation_mode_factor := 1 }

/-- A DDBC actuator whose only transition dangles. -/
def c1DDBCActuator : DDBCActuatorDescription :=
  { id := "A2", supported_commodities := [], status := c1DDBCActuatorStatus,
    operation_modes := [], transitions := [c1Transition], timers := [] }

/-- Two `PowerValue`s sharing `ELECTRIC_POWER_L1` for the C9 scenario. -/
def c9Values : List PowerValue :=
  [{ commodity_quantity := .ELECTRIC_POWER_L1, value := 100 },
   { commodity_quantity := .ELECTRIC_POWER_L1, value := 200 }]

/-! ### Claims -/

/-- Claim C1 (counterexample): an `OMBCSystemDescription` whose only
`Transition` has `to = "OM2"` while the only operation mode is `"OM1"`
constructs successfully — construction does not fail validation on a
dangling `to` reference, contrary to the claim. -/
theorem C1_counterexample :
    mkOMBCSystemDescription 0 [c1OperationMode] [c1Transition] [] c1Status =
      Except.ok c1Description ∧
    decide (hasDanglingTransitionTo c1Description) = true :=
  ⟨rfl, by decide⟩

/-- Claim C1 (amended): construction never fails on cross-references, for
`OMBCSystemDescription` and for the FRBC/DDBC `ActuatorDescription` and
`SystemDescription` variants alike: even when a contained `Transition`'s
`from` or `to` does not reference any contained operation mode id, or a
`start_timers`/`blocking_timers` id does not reference any contained `Timer`,
construction succeeds and returns exactly the given components (the only
pydantic validations in the source are declared field constraints; no
validator checks `from`/`to`/timer ids anywhere). -/
theorem C1_amended :
    (∀ (vf : S2DateTime) (oms : List OMBCOperationMode) (trs : List Transition)
        (tms : List Timer) (st : OMBCStatus),
      danglingTransitionRefs (oms.map (·.id)) (tms.map (·.id)) trs →
      mkOMBCSystemDescription vf oms trs tms st =
        Except.ok ⟨vf, oms, trs, tms, st⟩) ∧
    (∀ (i : ID) (dl : Option String) (sc : List String)
        (st : FRBCActuatorStatus) (oms : List FRBCOperationMode)
        (trs : List Transition) (tms : List Timer),
      danglingTransitionRefs (oms.map (·.id)) (tms.map (·.id)) trs →
      mkFRBCActuatorDescription i dl sc st oms trs tms =
        Except.ok ⟨i, dl, sc, st, oms, trs, tms⟩) ∧
    (∀ (vf : S2DateTime) (acts : List FRBCActuatorDescription)
        (stor : FRBCStorageDescription),
      (∃ a ∈ acts, a.danglingRefs) →
      mkFRBCSystemDescription vf acts stor = Except.ok ⟨vf, acts, stor⟩) ∧
    (∀ (i : ID) (dl : Option String) (sc : List String)
        (st : DDBCActuatorStatus) (oms : List DDBCOperationMode)
        (trs : List Transition) (tms : List Timer),
      danglingTransitionRefs (oms.map (·.id)) (tms.map (·.id)) trs →
      mkDDBCActuatorDescription i dl sc st oms trs tms =
        Except.ok ⟨i, dl, sc, st, oms, trs, tms⟩) ∧
    (∀ (vf : S2DateTime) (acts : List DDBCActuatorDescription)
        (pdr : NumberRange) (paf : Bool),
      (∃ a ∈ acts, a.danglingRefs) →
      mkDDBCSystemDescription vf acts pdr paf =
        Except.ok ⟨vf, acts, pdr, paf⟩) :=
  ⟨fun _ _ _ _ _ _ => rfl, fun _ _ _ _ _ _ _ _ => rfl, fun _ _ _ _ => rfl,
   fun _ _ _ _ _ _ _ _ => rfl, fun _ _ _ _ _ => rfl⟩

/-- Witness for C1: the amended theorem applied to concrete dangling inputs
of every variant — the OMBC description with a dangling `to`, and FRBC/DDBC
actuators and systems whose only transition has dangling `from`/`to` (no
contained operation modes). -/
theorem C1_witness :
    mkOMBCSystemDescription 0 [c1OperationMode] [c1Transition] [] c1Status =
      Except.ok ⟨0, [c1OperationMode], [c1Transition], [], c1Status⟩ ∧
    mkFRBCActuatorDescription "A1" none [] c1FRBCActuatorStatus []
        [c1Transition] [] =
      Except.ok ⟨"A1", none, [], c1FRBCActuatorStatus, [], [c1Transition], []⟩ ∧
    mkFRBCSystemDescription 0 [c1FRBCActuator] c1Storage =
      Except.ok ⟨0, [c1FRBCActuator], c1Storage⟩ ∧
    mkDDBCActuatorDescription "A2" none [] c1DDBCActuatorStatus []
        [c1Transition] [] =
      Except.ok ⟨"A2", none, [], c1DDBCActuatorStatus, [], [c1Transition], []⟩ ∧
    mkDDBCSystemDescription 0 [c1DDBCActuator]
        { start_of_range := 0, end_of_range := 0 } false =
      Except.ok ⟨0, [c1DDBCActuator], { start_of_range := 0, end_of_range := 0 },
        false⟩ :=
  ⟨C1_amended.1 0 [c1OperationMode] [c1Transition] [] c1Status (by decide),
   C1_amended.2.1 "A1" none [] c1FRBCActuatorStatus [] [c1Transition] []
     (by decide),
   C1_amended.2.2.1 0 [c1FRBCActuator] c1Storage
     ⟨c1FRBCActuator, List.mem_cons_self _ _, by decide⟩,
   C1_amended.2.2.2.1 "A2" none [] c1DDBCActuatorStatus [] [c1Transition] []
     (by decide),
   C1_amended.2.2.2.2 0 [c1DDBCActuator]
     { start_of_range := 0, end_of_range := 0 } false
     ⟨c1DDBCActuator, List.mem_cons_self _ _, by decide⟩⟩

/-- Claim C2: after every `add_instruction` the plan's instruction list is
sorted non-decreasing by `start_time`; and when the list was sorted before
the call (as it always is when the plan is built by `add_instruction` from an
empty list), the new list is exactly the stable insertion of the new
instruction: existing instructions keep their relative order and the new one
is placed after all instructions with `start_time` less than or equal to its
own, so instructions with equal `start_time` keep insertion order. -/
theorem C2_add_instruction_sorted_stable (p : EnergyManagementPlan)
    (now : S2DateTime) (x : DeviceControlInstruction) :
    ((p.addInstruction now x).instructions).Sorted leStart ∧
    (p.instructions.Sorted leStart →
      (p.addInstruction now x).instructions = insertAfterLe x p.instructions) := by
  have key : (p.addInstruction now x).instructions =
      (p.instructions ++ [x]).insertionSort leStart := by
    show (EnergyManagementPlan.updateTimeRange now _).instructions = _
    rw [updateTimeRange_instructions]
  constructor
  · rw [key]
    exact List.sorted_insertionSort leStart _
  · intro hs
    rw [key]
    exact insertionSort_append_singleton x p.instructions hs

/-- Witness for C2: adding `sampleInstrA` to the empty `samplePlan` (whose
instruction list is trivially sorted). -/
theorem C2_witness :
    ((samplePlan.addInstruction 0 sampleInstrA).instructions).Sorted leStart ∧
    (samplePlan.addInstruction 0 sampleInstrA).instructions =
      insertAfterLe sampleInstrA samplePlan.instructions :=
  ⟨(C2_add_instruction_sorted_stable samplePlan 0 sampleInstrA).1,
   (C2_add_instruction_sorted_stable samplePlan 0 sampleInstrA).2
     (by simp [samplePlan])⟩

/-- Claim C3: after `add_instruction` the plan is non-empty, `valid_from` is
the least `start_time` over all contained instructions (attained by one of
them) and `valid_until` the greatest `start_time + duration` (attained by one
of them); after `clear` the plan is empty and
`valid_from = valid_until = now` (the time of the mutation). -/
theorem C3_valid_window (p : EnergyManagementPlan) (now : S2DateTime)
    (x : DeviceControlInstruction) :
    ((p.addInstruction now x).instructions ≠ [] ∧
      (∃ a ∈ (p.addInstruction now x).instructions,
        (p.addInstruction now x).valid_from = some a.start_time ∧
        ∀ j ∈ (p.addInstruction now x).instructions,
          a.start_time ≤ j.start_time) ∧
      (∃ b ∈ (p.addInstruction now x).instructions,
        (p.addInstruction now x).valid_until = some (b.start_time + b.duration) ∧
        ∀ j ∈ (p.addInstruction now x).instructions,
          j.start_time + j.duration ≤ b.start_time + b.duration)) ∧
    ((p.clear now).instructions = [] ∧ (p.clear now).valid_from = some now ∧
      (p.clear now).valid_until = some now) := by
  refine ⟨?_, rfl, rfl, rfl⟩
  have hlen : ((p.instructions ++ [x]).insertionSort leStart).length =
      p.instructions.length + 1 := by
    rw [List.length_insertionSort, List.length_append]
    rfl
  have hne : (p.instructions ++ [x]).insertionSort leStart ≠ [] := by
    intro hnil
    rw [hnil] at hlen
    exact Nat.noConfusion hlen
  obtain ⟨i, is, hL⟩ := List.exists_cons_of_ne_nil hne
  have heq : p.addInstruction now x =
      EnergyManagementPlan.updateTimeRange now
        { p with instructions := (p.instructions ++ [x]).insertionSort leStart } :=
    rfl
  have spec := updateTimeRange_nonempty_spec now
    { p with instructions := (p.instructions ++ [x]).insertionSort leStart }
    i is hL
  rw [heq, updateTimeRange_instructions]
  exact ⟨by show (p.instructions ++ [x]).insertionSort leStart ≠ []; exact hne,
    spec.1, spec.2⟩

/-- Witness for C3: the window after adding `sampleInstrB` then checking the
concrete bounds via the theorem at `samplePlan`. -/
theorem C3_witness :
    ((samplePlan.addInstruction 0 sampleInstrB).instructions ≠ [] ∧
      (∃ a ∈ (samplePlan.addInstruction 0 sampleInstrB).instructions,
        (samplePlan.addInstruction 0 sampleInstrB).valid_from = some a.start_time ∧
        ∀ j ∈ (samplePlan.addInstruction 0 sampleInstrB).instructions,
          a.start_time ≤ j.start_time) ∧
      (∃ b ∈ (samplePlan.addInstruction 0 sampleInstrB).instructions,
        (samplePlan.addInstruction 0 sampleInstrB).valid_until =
          some (b.start_time + b.duration) ∧
        ∀ j ∈ (samplePlan.addInstruction 0 sampleInstrB).instructions,
          j.start_time + j.duration ≤ b.start_time + b.duration)) ∧
    ((samplePlan.clear 0).instructions = [] ∧
      (samplePlan.clear 0).valid_from = some 0 ∧
      (samplePlan.clear 0).valid_until = some 0) :=
  C3_valid_window samplePlan 0 sampleInstrB

/-- Claim C4: `get_active_instructions(t)` returns `some l` with `i ∈ l` for
exactly the contained instructions with
`start_time ≤ t < start_time + duration`; it returns the `None` sentinel iff
no contained instruction is active, and it never returns an empty list. -/
theorem C4_get_active_instructions (p : EnergyManagementPlan) (now : S2DateTime) :
    (∀ i : DeviceControlInstruction,
      (∃ l, p.getActiveInstructions now = some l ∧ i ∈ l) ↔
        (i ∈ p.instructions ∧ EnergyManagementPlan.activeAt now i)) ∧
    (p.getActiveInstructions now = none ↔
      ∀ i ∈ p.instructions, ¬ EnergyManagementPlan.activeAt now i) ∧
    (∀ l, p.getActiveInstructions now = some l → l ≠ []) := by
  unfold EnergyManagementPlan.getActiveInstructions
  by_cases hA : (p.instructions.filter
      (fun i => decide (EnergyManagementPlan.activeAt now i))).isEmpty
  · have hnil : p.instructions.filter
        (fun i => decide (EnergyManagementPlan.activeAt now i)) = [] :=
      List.isEmpty_iff.mp hA
    simp only [hA, if_true]
    refine ⟨?_, ?_, ?_⟩
    · intro i
      constructor
      · rintro ⟨l, hl, _⟩
        cases hl
      · rintro ⟨hi, hact⟩
        have : i ∈ p.instructions.filter
            (fun i => decide (EnergyManagementPlan.activeAt now i)) :=
          List.mem_filter.mpr ⟨hi, decide_eq_true hact⟩
        rw [hnil] at this
        cases this
    · constructor
      · intro _ i hi hact
        have : i ∈ p.instructions.filter
            (fun i => decide (EnergyManagementPlan.activeAt now i)) :=
          List.mem_filter.mpr ⟨hi, decide_eq_true hact⟩
        rw [hnil] at this
        cases this
      · intro _
        trivial
    · intro l hl
      cases hl
  · have hne : p.instructions.filter
        (fun i => decide (EnergyManagementPlan.activeAt now i)) ≠ [] := by
      intro hnil
      exact hA (by rw [hnil]; rfl)
    simp only [hA, if_false]
    refine ⟨?_, ?_, ?_⟩
    · intro i
      constructor
      · rintro ⟨l, hl, hil⟩
        have hlf : l = p.instructions.filter
            (fun i => decide (EnergyManagementPlan.activeAt now i)) :=
          (Option.some.injEq _ _ ▸ hl).symm
        rw [hlf] at hil
        obtain ⟨hi, hdec⟩ := List.mem_filter.mp hil
        exact ⟨hi, of_decide_eq_true hdec⟩
      · rintro ⟨hi, hact⟩
        exact ⟨_, rfl, List.mem_filter.mpr ⟨hi, decide_eq_true hact⟩⟩
    · constructor
      · intro h
        cases h
      · intro hall
        obtain ⟨i, is, hF⟩ := List.exists_cons_of_ne_nil hne
        have hiF : i ∈ p.instructions.filter
            (fun i => decide (EnergyManagementPlan.activeAt now i)) := by
          rw [hF]
          exact List.mem_cons_self i is
        obtain ⟨hi, hdec⟩ := List.mem_filter.mp hiF
        exact absurd (of_decide_eq_true hdec) (hall i hi)
    · intro l hl
      have hlf : l = p.instructions.filter
          (fun i => decide (EnergyManagementPlan.activeAt now i)) :=
        (Option.some.injEq _ _ ▸ hl).symm
      rw [hlf]
      exact hne

/-- Witness for C4: at time `1800` the sample two-instruction plan reports
`sampleInstrA` active, via the theorem. -/
theorem C4_witness :
    ∃ l, samplePlan2.getActiveInstructions 1800 = some l ∧ sampleInstrA ∈ l :=
  ((C4_get_active_instructions samplePlan2 1800).1 sampleInstrA).mpr
    (by constructor
        · show sampleInstrA ∈ [sampleInstrA, sampleInstrB]
          exact List.mem_cons_self _ _
        · exact ⟨by decide, by decide⟩)

/-- Claim C5: `get_next_instruction(t)` returns the `None` sentinel iff no
contained instruction starts strictly after `t`; otherwise it returns a
contained instruction starting strictly after `t` whose `start_time` is
minimal among those, namely the first such minimal one in plan order (which
by C2 is insertion order among equal `start_time`s). -/
theorem C5_get_next_instruction (p : EnergyManagementPlan) (now : S2DateTime) :
    (p.getNextInstruction now = none ↔
      ∀ i ∈ p.instructions, ¬ now < i.start_time) ∧
    (∀ i, p.getNextInstruction now = some i →
      i ∈ p.instructions ∧ now < i.start_time ∧
      (∀ j ∈ p.instructions, now < j.start_time → i.start_time ≤ j.start_time) ∧
      ∃ pre post,
        p.instructions.filter (fun j => decide (now < j.start_time)) =
          pre ++ i :: post ∧
        ∀ j ∈ pre, i.start_time < j.start_time) := by
  unfold EnergyManagementPlan.getNextInstruction
  cases hF : p.instructions.filter (fun j => decide (now < j.start_time)) with
  | nil =>
      refine ⟨⟨fun _ => ?_, fun _ => rfl⟩, fun i hi => by cases hi⟩
      intro i hi hlt
      have : i ∈ p.instructions.filter (fun j => decide (now < j.start_time)) :=
        List.mem_filter.mpr ⟨hi, decide_eq_true hlt⟩
      rw [hF] at this
      cases this
  | cons h t =>
      constructor
      · constructor
        · intro habs
          cases habs
        · intro hall
          exfalso
          have hhF : h ∈ p.instructions.filter
              (fun j => decide (now < j.start_time)) := by
            rw [hF]
            exact List.mem_cons_self h t
          obtain ⟨hh, hdec⟩ := List.mem_filter.mp hhF
          exact hall h hh (of_decide_eq_true hdec)
      · intro i hi
        have hieq : EnergyManagementPlan.pyMinByStart h t = i :=
          Option.some.inj hi
        obtain ⟨hmin, pre, post, hsplit, hpre⟩ := pyMinByStart_spec t h
        rw [hieq] at hmin hsplit hpre
        have hmemht : i ∈ h :: t := by
          rw [hsplit]
          exact List.mem_append_right pre (List.mem_cons_self i post)
        have hmemF : i ∈ p.instructions.filter
            (fun j => decide (now < j.start_time)) := by
          rw [hF]
          exact hmemht
        obtain ⟨hmem, hdec⟩ := List.mem_filter.mp hmemF
        refine ⟨hmem, of_decide_eq_true hdec, ?_, pre, post, ?_, hpre⟩
        · intro j hj hjlt
          have hjF : j ∈ p.instructions.filter
              (fun j => decide (now < j.start_time)) :=
            List.mem_filter.mpr ⟨hj, decide_eq_true hjlt⟩
          rw [hF] at hjF
          exact hmin j hjF
        · exact hsplit

/-- Witness for C5: at time `0` the sample two-instruction plan's next
instruction is `sampleInstrB`, and the theorem yields its properties. -/
theorem C5_witness :
    sampleInstrB ∈ samplePlan2.instructions ∧ (0 : S2DateTime) < sampleInstrB.start_time ∧
    (∀ j ∈ samplePlan2.instructions,
      (0 : S2DateTime) < j.start_time → sampleInstrB.start_time ≤ j.start_time) ∧
    ∃ pre post,
      samplePlan2.instructions.filter (fun j => decide ((0 : S2DateTime) < j.start_time)) =
        pre ++ sampleInstrB :: post ∧
      ∀ j ∈ pre, sampleInstrB.start_time < j.start_time :=
  (C5_get_next_instruction samplePlan2 0).2 sampleInstrB (by decide)

/-- Claim C6: after `clear`, the instruction list is empty,
`valid_from = valid_until = now` (the time of the clear), and both queries
return the `None` sentinel at every time until the next mutation. -/
theorem C6_clear_resets (p : EnergyManagementPlan) (now t : S2DateTime) :
    (p.clear now).instructions = [] ∧
    (p.clear now).valid_from = some now ∧
    (p.clear now).valid_until = some now ∧
    (p.clear now).getActiveInstructions t = none ∧
    (p.clear now).getNextInstruction t = none :=
  ⟨rfl, rfl, rfl, rfl, rfl⟩

/-- Claim C7: every abstract CEC handler and every abstract Simulation
handler is a pure stub: the CEC handlers and the Simulation
`activate_control_type`/`revoke_*_instruction` handlers return
`ReceptionStatus(REJECTED, "abstract method")` for every receiver and every
argument, and `process_instruction` returns `InstructionStatus.REJECTED`;
being total Lean functions returning only the status value, they neither
mutate the receiver nor raise. -/
theorem C7_abstract_defaults (cec : OptimizationBase) (sim : SimulationBase)
    (sid aid : ID) (u : SimulationUpdate) (pm : PowerMeasurement)
    (pf : PowerForecast) (ct : ControlType) (ins : SimInstruction) :
    abstractMethodRejected =
      { status := .REJECTED, diagnostic_label := some "abstract method" } ∧
    cec.process_simulation_update sid u = abstractMethodRejected ∧
    cec.process_power_measurement sid pm = abstractMethodRejected ∧
    cec.process_power_forecast sid pf = abstractMethodRejected ∧
    cec.revoke_power_forecast sid = abstractMethodRejected ∧
    cec.revoke_pebc_power_constraints sid aid = abstractMethodRejected ∧
    cec.revoke_pebc_energy_constraints sid aid = abstractMethodRejected ∧
    cec.revoke_ppbc_power_profile_definition sid aid = abstractMethodRejected ∧
    cec.revoke_ombc_system_description sid aid = abstractMethodRejected ∧
    cec.revoke_frbc_system_description sid aid = abstractMethodRejected ∧
    cec.revoke_frbc_leakage_behaviour sid = abstractMethodRejected ∧
    cec.revoke_frbc_usage_forecast sid = abstractMethodRejected ∧
    cec.revoke_frbc_fill_level_target_profile sid = abstractMethodRejected ∧
    cec.revoke_ddbc_system_description sid = abstractMethodRejected ∧
    cec.revoke_ddbc_average_demand_rate_forecast sid = abstractMethodRejected ∧
    sim.activate_control_type ct = abstractMethodRejected ∧
    sim.process_instruction ins = InstructionStatus.REJECTED ∧
    sim.revoke_pebc_instruction aid = abstractMethodRejected ∧
    sim.revoke_ppbc_instruction aid = abstractMethodRejected ∧
    sim.revoke_ppbc_start_interrupt_instruction aid = abstractMethodRejected ∧
    sim.revoke_ppbc_end_interrupt_instruction aid = abstractMethodRejected ∧
    sim.revoke_ombc_instruction aid = abstractMethodRejected ∧
    sim.revoke_frbc_instruction aid = abstractMethodRejected ∧
    sim.revoke_ddbc_instruction aid = abstractMethodRejected :=
  ⟨rfl, rfl, rfl, rfl, rfl, rfl, rfl, rfl, rfl, rfl, rfl, rfl, rfl, rfl, rfl,
   rfl, rfl, rfl, rfl, rfl, rfl, rfl, rfl, rfl⟩

/-- Claim C8 (counterexample): the source's
`revoke_ddbc_system_description` and
`revoke_ddbc_average_demand_rate_forecast` take a single `ID` parameter
(`simulation_id` only), not the `(simulation_id, artifact_id)` pair the claim
asserts for them. -/
theorem C8_counterexample :
    cecRevokeIdParams CECRevokeOp.ddbc_system_description = 1 ∧
    cecRevokeIdParams CECRevokeOp.ddbc_average_demand_rate_forecast = 1 ∧
    decide (cecRevokeIdParams CECRevokeOp.ddbc_system_description = 2) = false ∧
    decide (cecRevokeIdParams CECRevokeOp.ddbc_average_demand_rate_forecast = 2)
      = false :=
  ⟨rfl, rfl, by decide, by decide⟩

/-- Claim C8 (amended): the paradigm-specific CEC revoke operations are keyed
by `(simulation_id, artifact_id)` except leakage behaviour, usage forecast,
fill-level target profile, DDBC system description and DDBC average demand
rate forecast, which are keyed by `simulation_id` alone. -/
theorem C8_amended (op : CECRevokeOp) :
    cecRevokeIdParams op =
      (if op = .frbc_leakage_behaviour ∨ op = .frbc_usage_forecast ∨
          op = .frbc_fill_level_target_profile ∨ op = .ddbc_system_description ∨
          op = .ddbc_average_demand_rate_forecast
        then 1 else 2) := by
  cases op <;> rfl

/-- Claim C9: constructing a `PowerMeasurement` whose `values` contain two
`PowerValue`s with the same `CommodityQuantity` succeeds — the documented
at-most-one-per-commodity invariant is not enforced at construction. -/
theorem C9_duplicate_commodity_accepted :
    mkPowerMeasurement 0 c9Values = Except.ok ⟨0, c9Values⟩ ∧
    decide (uniquePerCommodity c9Values) = false :=
  ⟨rfl, by decide⟩

/-- Claim C10 (code evaluation): for every `DeviceControlInstruction`,
`is_power_control` and `is_fill_level_control` raise `AttributeError`
(their bodies read the attributes `power_value` and `fill_level_target`,
which are not declared fields — the fields are `power` and `fill_level`),
while `is_enable_disable` returns without raising, `True` iff `enable` is
set.  This contradicts the claim that all three predicates execute without
raising. -/
theorem C10_predicate_methods (self : DeviceControlInstruction) :
    self.is_power_control = Except.error
      "AttributeError: DeviceControlInstruction has no attribute power_value" ∧
    self.is_fill_level_control = Except.error
      "AttributeError: DeviceControlInstruction has no attribute fill_level_target" ∧
    self.is_enable_disable = Except.ok self.enable.isSome := by
  obtain ⟨cid, td, cq, st, du, pw, fl, en⟩ := self
  refine ⟨rfl, rfl, ?_⟩
  cases en <;> rfl

end EOS
